import Mathlib

/-!
Verification of the contact-data import pipeline.

This development shallowly embeds the pipeline's services and the
background worker task:

* `detectContentType` — the content-type router
  (`src/handlers` `detectContentType`);
* `ImportService` operations — `uploadContent`, `queueJob`,
  `processUpload`, `processImport`, `processFileUpload`,
  `processStreamUpload` (`src/services/import.service.ts`), with the
  resumable upload service's `uploadJsonData`
  (`src/services/resumable-upload.service.ts`);
* the worker's `ImportTaskProcessor` — `parseContent`, the zod contact
  schemas, and `processImportJob`.

Modelling conventions:

* JSON texts are represented by their parse trees (`Json` below); the
  external JSON library's `parse`/`stringify` round trip is the identity
  on these values.  An artifact staged from `JSON.stringify(v)` is
  recorded with body `Content.jsonValue v`; opaque file/stream byte
  payloads are recorded as `Content.raw`.
* External collaborators (object storage, job queue, relational store)
  are modelled by explicit state (`Sys`) threaded through the service
  operations, and by outcome flags (`uploadOk`, `insertOk`, `deleteOk`)
  standing for the success or failure (exception) of each collaborator
  call.  A thrown exception is an `Except.error` result.
* The zod `z.email()` validator is library code; it is abstracted as a
  boolean predicate `emailOk` carried in the worker environment.
* JavaScript's number-to-string interpolation of the timestamp is
  modelled by `natDecimal`, the standard base-10 rendering built on
  `Nat.digits`.
-/

namespace ImportPipeline

/-- Parse trees of JSON texts (the result of `JSON.parse`). -/
inductive Json where
  | null
  | bool (b : Bool)
  | num (n : Int)
  | str (s : String)
  | arr (elems : List Json)
  | obj (fields : List (String × Json))

/-- The body of a staged artifact: either a JSON serialization of a value,
or an opaque byte payload (multipart file / raw stream). -/
inductive Content where
  | jsonValue (j : Json)
  | raw (bytes : List Nat)

/-- The three handler variants of the content-type router. -/
inductive ContentType where
  | multipart
  | json
  | stream
deriving DecidableEq, Repr

/-- JavaScript's `String.prototype.includes`: `pat` occurs as a contiguous
substring of `s`. -/
def strIncludes (s pat : String) : Bool :=
  decide (pat.data <:+: s.data)

/-- The content-type router (`detectContentType` in the handler module):
lower-case the declared type, return `stream` when it is empty (falsy),
otherwise match `multipart/form-data` then `application/json` by substring,
defaulting to `stream`. -/
def detectContentType (contentType : String) : ContentType :=
  let ct := contentType.toLower
  if ct = "" then .stream
  else if strIncludes ct "multipart/form-data" then .multipart
  else if strIncludes ct "application/json" then .json
  else .stream

/-- Modelled from the spec (for the refinement claim on the router): a pure
case-insensitive substring match — any string containing
`multipart/form-data` maps to `multipart`, otherwise any string containing
`application/json` maps to `json`, and every other string maps to
`stream`. -/
def detectContentTypeSpec (contentType : String) : ContentType :=
  if strIncludes contentType.toLower "multipart/form-data" then .multipart
  else if strIncludes contentType.toLower "application/json" then .json
  else .stream

/-- Base-10 rendering of a natural number, modelling JavaScript's
number-to-string conversion of the (integral, non-negative) timestamp
inside a template literal. -/
def natDecimal (n : Nat) : String :=
  if n = 0 then "0"
  else String.mk (((Nat.digits 10 n).map Nat.digitChar).reverse)

/-- Model of `ImportService.generateJobId`: the template literal
`` `${Date.now()}-${Math.random().toString(36).substr(2, 9)}` ``; `now`
models the `Date.now()` reading of the submission attempt and `randSuffix`
the base-36 random suffix it draws. -/
def generateJobId (now : Nat) (randSuffix : String) : String :=
  natDecimal now ++ "-" ++ randSuffix

/-- An object written to storage: the storage key, the body, and the
metadata map attached to the staged object (`none` when the upload path
attaches no metadata at all). -/
structure UploadRecord where
  fileName : String
  body : Content
  metadata : Option (List (String × String))

/-- A task enqueued on the job queue (graphile-worker's `addJob`). -/
structure TaskRecord where
  taskName : String
  jobId : String
  source : String
  fileName : String
deriving DecidableEq, Repr

/-- The observable state of the external collaborators reached by the
service layer: the staged artifacts and the job queue. -/
structure Sys where
  uploads : List UploadRecord
  queue : List TaskRecord

/-- The `UploadContext` of `ImportService`. -/
structure UploadContext where
  jobId : String
  source : String
  fileName : String
  useResumable : Bool
  metadata : List (String × String) := []

/-- Model of `ImportService.uploadContent`: on the resumable path
`ResumableUploadService.uploadFile` serializes the metadata map — with
`jobId` and `source` merged in — onto the staged object; on the direct path
`StorageRepository.uploadFile` is called with only the key and the body,
attaching no metadata.  `uploadOk` is the storage collaborator's outcome; a
failed upload throws and stages nothing. -/
def uploadContent (ctx : UploadContext) (content : Content) (uploadOk : Bool)
    (s : Sys) : Except String Sys :=
  if uploadOk then
    if ctx.useResumable then
      .ok { s with uploads := s.uploads ++
        [{ fileName := ctx.fileName, body := content,
           metadata := some (ctx.metadata ++
             [("jobId", ctx.jobId), ("source", ctx.source)]) }] }
    else
      .ok { s with uploads := s.uploads ++
        [{ fileName := ctx.fileName, body := content, metadata := none }] }
  else
    .error "UploadFailed"

/-- Model of `ResumableUploadService.uploadJsonData`: stages the JSON serialization
of `data` under `fileName`, with the given metadata map attached through
`uploadFile`'s tus metadata. -/
def uploadJsonData (fileName : String) (data : Json)
    (metadata : List (String × String)) (uploadOk : Bool) (s : Sys) :
    Except String Sys :=
  if uploadOk then
    .ok { s with uploads := s.uploads ++
      [{ fileName := fileName, body := .jsonValue data,
         metadata := some metadata }] }
  else
    .error "UploadFailed"

/-- Model of `ImportService.queueJob`: enqueue one `processImportJob` task with
payload `{jobId, source, fileName}`. -/
def queueJob (jobId source fileName : String) (s : Sys) : Sys :=
  { s with queue := s.queue ++
      [{ taskName := "processImportJob", jobId := jobId, source := source,
         fileName := fileName }] }

/-- Model of `ImportService.processUpload`: upload the content, then — only if the
upload succeeded — enqueue the job and return the `jobId` response.  The
final collaborator state is returned alongside the outcome. -/
def processUpload (ctx : UploadContext) (content : Content) (uploadOk : Bool)
    (s : Sys) : Except String String × Sys :=
  match uploadContent ctx content uploadOk s with
  | .error e => (.error e, s)
  | .ok s1 => (.ok ctx.jobId, queueJob ctx.jobId ctx.source ctx.fileName s1)

/-- The validated body of a JSON-path import request: `source` and the
`data` array. -/
structure ImportRequest where
  source : String
  data : List Json

/-- Model of `ImportService.processImport`: stage `JSON.stringify(request.data)`
under `import-<jobId>.json` — via `uploadJsonData` with a
`{jobId, source}` metadata map on the resumable path, via `uploadContent`
on the direct path — then enqueue the job.  The `jobId` parameter models
the id generated for this submission. -/
def processImport (req : ImportRequest) (useResumable : Bool) (jobId : String)
    (uploadOk : Bool) (s : Sys) : Except String String × Sys :=
  let fileName := "import-" ++ jobId ++ ".json"
  let uploaded : Except String Sys :=
    if useResumable then
      uploadJsonData fileName (.arr req.data)
        [("jobId", jobId), ("source", req.source)] uploadOk s
    else
      uploadContent
        { jobId := jobId, source := req.source, fileName := fileName,
          useResumable := false } (.jsonValue (.arr req.data)) uploadOk s
  match uploaded with
  | .error e => (.error e, s)
  | .ok s1 => (.ok jobId, queueJob jobId req.source fileName s1)

/-- Model of `ImportService.processFileUpload`: buffer the multipart file and hand
it to `processUpload` under `import-<jobId>-<originalName>` with file
metadata. -/
def processFileUpload (fileBytes : List Nat) (origName : String)
    (source : String) (useResumable : Bool) (jobId : String) (uploadOk : Bool)
    (s : Sys) : Except String String × Sys :=
  processUpload
    { jobId := jobId, source := source,
      fileName := "import-" ++ jobId ++ "-" ++ origName,
      useResumable := useResumable,
      metadata := [("originalName", origName),
                   ("size", natDecimal fileBytes.length),
                   ("uploadType", "file")] }
    (.raw fileBytes) uploadOk s

/-- Model of `ImportService.processStreamUpload`: drain the raw body and hand it to
`processUpload` under `import-<jobId>-stream.json` with stream metadata
(`ts` models `new Date().toISOString()`). -/
def processStreamUpload (bodyBytes : List Nat) (source : String)
    (useResumable : Bool) (jobId : String) (ts : String) (uploadOk : Bool)
    (s : Sys) : Except String String × Sys :=
  processUpload
    { jobId := jobId, source := source,
      fileName := "import-" ++ jobId ++ "-stream.json",
      useResumable := useResumable,
      metadata := [("size", natDecimal bodyBytes.length),
                   ("uploadType", "stream"), ("timestamp", ts)] }
    (.raw bodyBytes) uploadOk s

/-- Model of `ImportTaskProcessor.parseContent` applied to the parse tree of the
downloaded text: a bare array is returned as is; a non-null object with a
`data` field returns that field's value; every other shape throws
`Invalid JSON format`. -/
def parseContent (parsed : Json) : Except String Json :=
  match parsed with
  | .arr elems => .ok (.arr elems)
  | .obj fields =>
    match fields.lookup "data" with
    | some v => .ok v
    | none =>
      .error "Invalid JSON format: expected array of contacts or import request structure"
  | _ =>
    .error "Invalid JSON format: expected array of contacts or import request structure"

/-- A contact that passed the worker-side zod schema. -/
structure ValidContact where
  name : String
  email : String
deriving DecidableEq, Repr

/-- A row handed to `ContactRepository.createMany`. -/
structure InsertRow where
  name : String
  email : String
  source : String
deriving DecidableEq, Repr

/-- The worker's `importedContactSchema`
(`z.object({ name: z.string().min(1).max(255), email: z.email() })`)
applied to one parsed element; `emailOk` abstracts the zod email
validator. -/
def importedContactSchema (emailOk : String → Bool) (j : Json) :
    Except String ValidContact :=
  match j with
  | .obj fields =>
    match fields.lookup "name", fields.lookup "email" with
    | some (.str n), some (.str e) =>
      if n.length < 1 then .error "name: String must contain at least 1 character"
      else if 255 < n.length then .error "name: String must contain at most 255 characters"
      else if emailOk e then .ok { name := n, email := e }
      else .error "email: Invalid email"
    | _, _ => .error "invalid contact object"
  | _ => .error "Expected object"

/-- Element-wise run of `importedContactSchema` over a parsed array; any
failing element fails the whole run (zod's `parse` throws when any issue is
recorded). -/
def importedContactsElems (emailOk : String → Bool) :
    List Json → Except String (List ValidContact)
  | [] => .ok []
  | j :: rest =>
    match importedContactSchema emailOk j, importedContactsElems emailOk rest with
    | .ok c, .ok cs => .ok (c :: cs)
    | .error e, _ => .error e
    | .ok _, .error e => .error e

/-- The worker's `importedContactsArraySchema`
(`z.array(importedContactSchema).min(1)`): the parsed array must have at
least one element and every element must pass the contact schema. -/
def importedContactsArraySchema (emailOk : String → Bool) (elems : List Json) :
    Except String (List ValidContact) :=
  if elems.length < 1 then .error "Array must contain at least 1 element(s)"
  else importedContactsElems emailOk elems

/-- The collaborator outcomes one worker task run observes: the download
result (the parse tree of the downloaded text, or a thrown error), the
batch-insert outcome, and the artifact-delete outcome.  `emailOk` abstracts
the zod email validator. -/
structure WorkerEnv where
  emailOk : String → Bool
  download : Except String Json
  insertOk : Bool
  deleteOk : Bool

/-- The observable outcome of one worker task run: the task result (`ok`
with the processed count, or the thrown error), the rows inserted into the
contacts store, and whether `deleteFile` was invoked on the artifact. -/
structure WorkerRun where
  result : Except String Nat
  inserted : List InsertRow
  deleteInvoked : Bool

/-- Model of `ImportTaskProcessor.processImportJob`: download the artifact, parse
it, require an array, validate it against `importedContactsArraySchema`,
batch-insert the stamped rows, then delete the artifact inside an inner
`try`/`catch` whose failure is only logged; any earlier failure is
re-thrown and fails the task. -/
def processImportJob (env : WorkerEnv) (source : String) : WorkerRun :=
  match env.download with
  | .error e => { result := .error e, inserted := [], deleteInvoked := false }
  | .ok content =>
    match parseContent content with
    | .error e => { result := .error e, inserted := [], deleteInvoked := false }
    | .ok raw =>
      match raw with
      | .arr rawContacts =>
        match importedContactsArraySchema env.emailOk rawContacts with
        | .error e => { result := .error e, inserted := [], deleteInvoked := false }
        | .ok validated =>
          let rows := validated.map fun c =>
            { name := c.name, email := c.email, source := source : InsertRow }
          if env.insertOk then
            { result := .ok rows.length, inserted := rows, deleteInvoked := true }
          else
            { result := .error "insert failed", inserted := [], deleteInvoked := false }
      | _ =>
        { result := .error "Invalid data format: expected array of contacts",
          inserted := [], deleteInvoked := false }

end ImportPipeline

namespace ImportPipeline

/-- Claim C6: the content-type router is a total pure function agreeing with
the spec's description: case-insensitive substring match sending any string
containing `multipart/form-data` to `multipart`, otherwise any string
containing `application/json` to `json`, and every other string (including
the empty content type) to `stream`; it never errors. -/
theorem detectContentType_matches_spec (s : String) :
    detectContentType s = detectContentTypeSpec s := by
  unfold detectContentType detectContentTypeSpec
  by_cases h : s.toLower = ""
  · rw [h]
    decide
  · simp [h]

/-- Claim C1: on every submission path (JSON — direct or resumable — file,
and stream), a failed staging upload throws, leaving the queue unchanged
with zero tasks enqueued, while a successful staging upload enqueues
exactly one `processImportJob` task referencing the submission's `jobId`,
`source` and `fileName`. -/
theorem enqueue_only_after_staging (req : ImportRequest) (ur : Bool)
    (jobId origName src ts : String) (bytes : List Nat) (s : Sys) :
    ((processImport req ur jobId false s).1.isOk = false
      ∧ (processImport req ur jobId false s).2.queue = s.queue)
    ∧ (processImport req ur jobId true s).2.queue =
        s.queue ++ [{ taskName := "processImportJob", jobId := jobId,
                      source := req.source,
                      fileName := "import-" ++ jobId ++ ".json" }]
    ∧ ((processFileUpload bytes origName src ur jobId false s).1.isOk = false
      ∧ (processFileUpload bytes origName src ur jobId false s).2.queue = s.queue)
    ∧ (processFileUpload bytes origName src ur jobId true s).2.queue =
        s.queue ++ [{ taskName := "processImportJob", jobId := jobId,
                      source := src,
                      fileName := "import-" ++ jobId ++ "-" ++ origName }]
    ∧ ((processStreamUpload bytes src ur jobId ts false s).1.isOk = false
      ∧ (processStreamUpload bytes src ur jobId ts false s).2.queue = s.queue)
    ∧ (processStreamUpload bytes src ur jobId ts true s).2.queue =
        s.queue ++ [{ taskName := "processImportJob", jobId := jobId,
                      source := src,
                      fileName := "import-" ++ jobId ++ "-stream.json" }] := by
  cases ur <;>
    simp [processImport, processFileUpload, processStreamUpload, processUpload,
      uploadContent, uploadJsonData, queueJob, Except.isOk, Except.toBool]

/-- Claim C10: a JSON-path submission stages, on both the resumable and the
direct upload path, exactly the serialization of the request's `data` array
— the bare-array shape (`Json.arr req.data`), never the envelope object
shape — and the request's `source` is never written into the artifact
body. -/
theorem json_path_stages_bare_array (req : ImportRequest) (ur : Bool)
    (jobId : String) (s : Sys) :
    (processImport req ur jobId true s).2.uploads =
      s.uploads ++
        [{ fileName := "import-" ++ jobId ++ ".json",
           body := .jsonValue (.arr req.data),
           metadata := if ur then
               some [("jobId", jobId), ("source", req.source)]
             else none }] := by
  cases ur <;> simp [processImport, uploadJsonData, uploadContent, queueJob]

/-- Claim C8 counterexample: the direct (non-resumable) upload path stages
the artifact with no metadata attached at all, so `jobId` and `source` are
not recoverable from the staged artifact — the single upload performed by a
concrete direct JSON submission carries `metadata = none`. -/
theorem direct_upload_attaches_no_metadata :
    ((processImport { source := "acme", data := [] } false "job1" true
        { uploads := [], queue := [] }).2.uploads.map
      UploadRecord.metadata) = [none] := by
  simp [processImport, uploadContent, queueJob]

/-- Claim C8 (amended): only the resumable path attaches the serialized
metadata map — both `uploadContent` with the resumable flag and
`processImport`'s `uploadJsonData` branch attach a map carrying the
submission's `jobId` and `source` to the staged artifact; the direct path
attaches no metadata. -/
theorem resumable_path_metadata (ctx : UploadContext) (content : Content)
    (req : ImportRequest) (jobId : String) (s : Sys)
    (h : ctx.useResumable = true) :
    (∃ m, uploadContent ctx content true s =
        .ok { s with uploads := s.uploads ++
          [{ fileName := ctx.fileName, body := content, metadata := some m }] }
      ∧ ("jobId", ctx.jobId) ∈ m ∧ ("source", ctx.source) ∈ m)
    ∧ (∃ m, (processImport req true jobId true s).2.uploads =
        s.uploads ++ [{ fileName := "import-" ++ jobId ++ ".json",
                        body := .jsonValue (.arr req.data),
                        metadata := some m }]
      ∧ ("jobId", jobId) ∈ m ∧ ("source", req.source) ∈ m) := by
  constructor
  · refine ⟨ctx.metadata ++ [("jobId", ctx.jobId), ("source", ctx.source)],
      ?_, ?_, ?_⟩
    · simp [uploadContent, h]
    · simp
    · simp
  · refine ⟨[("jobId", jobId), ("source", req.source)], ?_, ?_, ?_⟩
    · simp [processImport, uploadJsonData, queueJob]
    · simp
    · simp

/-- Witness for the amended C8 theorem at a concrete resumable upload. -/
theorem resumable_path_metadata_witness :
    ∃ m, uploadContent ⟨"j1", "acme", "f1", true, []⟩ (.raw []) true ⟨[], []⟩ =
      .ok ⟨[⟨"f1", .raw [], some m⟩], []⟩
      ∧ ("jobId", "j1") ∈ m ∧ ("source", "acme") ∈ m :=
  (resumable_path_metadata ⟨"j1", "acme", "f1", true, []⟩ (.raw [])
    ⟨"acme", []⟩ "j1" ⟨[], []⟩ rfl).1

/-- If some member of the parsed array fails the contact schema, the whole
element-wise run fails. -/
theorem importedContactsElems_err_of_mem (emailOk : String → Bool)
    (elems : List Json) (j : Json) (hmem : j ∈ elems)
    (hbad : (importedContactSchema emailOk j).isOk = false) :
    (importedContactsElems emailOk elems).isOk = false := by
  induction elems with
  | nil => cases hmem
  | cons x rest ih =>
    unfold importedContactsElems
    rcases List.mem_cons.mp hmem with h | h
    · subst h
      cases hx : importedContactSchema emailOk j with
      | error e => simp [Except.isOk, Except.toBool]
      | ok c => rw [hx] at hbad; simp [Except.isOk, Except.toBool] at hbad
    · cases hx : importedContactSchema emailOk x with
      | error e => simp [Except.isOk, Except.toBool]
      | ok c =>
        cases hr : importedContactsElems emailOk rest with
        | error e => simp [Except.isOk, Except.toBool]
        | ok cs =>
          have hrec := ih h
          rw [hr] at hrec
          simp [Except.isOk, Except.toBool] at hrec

/-- Claim C2: all-or-nothing batch validation — if any element of the
parsed contact array fails the contact schema (name 1–255 characters and a
valid email), the whole worker task fails and zero rows are inserted; there
is no per-record partial success. -/
theorem batch_validation_all_or_nothing (env : WorkerEnv) (source : String)
    (content : Json) (elems : List Json) (j : Json)
    (hdl : env.download = .ok content)
    (hp : parseContent content = .ok (.arr elems))
    (hmem : j ∈ elems)
    (hbad : (importedContactSchema env.emailOk j).isOk = false) :
    (processImportJob env source).result.isOk = false
      ∧ (processImportJob env source).inserted = [] := by
  have hlen : ¬ elems.length < 1 := by
    have := List.length_pos.mpr (List.ne_nil_of_mem hmem)
    omega
  have harr : (importedContactsArraySchema env.emailOk elems).isOk = false := by
    unfold importedContactsArraySchema
    rw [if_neg hlen]
    exact importedContactsElems_err_of_mem env.emailOk elems j hmem hbad
  cases hv : importedContactsArraySchema env.emailOk elems with
  | ok v => rw [hv] at harr; simp [Except.isOk, Except.toBool] at harr
  | error e =>
    simp [processImportJob, hdl, hp, hv, Except.isOk, Except.toBool]

/-- Witness for the C2 theorem: a two-element batch whose second element
has an invalid email is wholly rejected and inserts nothing. -/
theorem batch_validation_all_or_nothing_witness :
    (processImportJob
        ⟨fun e => e = "alice@example.com",
         .ok (.arr [.obj [("name", .str "Alice"),
                          ("email", .str "alice@example.com")],
                    .obj [("name", .str "Bob"),
                          ("email", .str "not-an-email")]]),
         true, true⟩ "acme").result.isOk = false
      ∧ (processImportJob
          ⟨fun e => e = "alice@example.com",
           .ok (.arr [.obj [("name", .str "Alice"),
                            ("email", .str "alice@example.com")],
                      .obj [("name", .str "Bob"),
                            ("email", .str "not-an-email")]]),
           true, true⟩ "acme").inserted = [] :=
  batch_validation_all_or_nothing _ "acme"
    (.arr [.obj [("name", .str "Alice"), ("email", .str "alice@example.com")],
           .obj [("name", .str "Bob"), ("email", .str "not-an-email")]])
    [.obj [("name", .str "Alice"), ("email", .str "alice@example.com")],
     .obj [("name", .str "Bob"), ("email", .str "not-an-email")]]
    (.obj [("name", .str "Bob"), ("email", .str "not-an-email")])
    rfl rfl (by simp) (by decide)

/-- Claim C3: cleanup non-fatality — when the batch insert succeeds, a
failure of the artifact delete is caught inside the inner `try`/`catch` and
only logged: the task still reports success with the processed count (the
environment below has `deleteOk := false`). -/
theorem cleanup_failure_nonfatal (emailOk : String → Bool) (content : Json)
    (source : String) (elems : List Json) (validated : List ValidContact)
    (hp : parseContent content = .ok (.arr elems))
    (hv : importedContactsArraySchema emailOk elems = .ok validated) :
    (processImportJob ⟨emailOk, .ok content, true, false⟩ source).result
        = .ok validated.length
      ∧ (processImportJob ⟨emailOk, .ok content, true, false⟩
          source).deleteInvoked = true := by
  simp [processImportJob, hp, hv]

/-- Witness for the C3 theorem: a one-contact batch is processed
successfully (count 1, delete invoked) even though the delete fails. -/
theorem cleanup_failure_nonfatal_witness :
    (processImportJob
        ⟨fun _ => true,
         .ok (.arr [.obj [("name", .str "Alice"),
                          ("email", .str "alice@example.com")]]),
         true, false⟩ "acme").result = .ok 1
      ∧ (processImportJob
          ⟨fun _ => true,
           .ok (.arr [.obj [("name", .str "Alice"),
                            ("email", .str "alice@example.com")]]),
           true, false⟩ "acme").deleteInvoked = true :=
  cleanup_failure_nonfatal (fun _ => true)
    (.arr [.obj [("name", .str "Alice"), ("email", .str "alice@example.com")]])
    "acme"
    [.obj [("name", .str "Alice"), ("email", .str "alice@example.com")]]
    [⟨"Alice", "alice@example.com"⟩] rfl rfl

/-- Claim C9: an artifact whose content parses to the empty array is
rejected by the worker-side array schema (`.min(1)`): the task fails and
zero rows are inserted, for every insert/delete outcome. -/
theorem empty_batch_rejected (emailOk : String → Bool) (iOk dOk : Bool)
    (source : String) :
    (processImportJob ⟨emailOk, .ok (.arr []), iOk, dOk⟩ source).result.isOk
        = false
      ∧ (processImportJob ⟨emailOk, .ok (.arr []), iOk, dOk⟩ source).inserted
        = [] := by
  simp [processImportJob, parseContent, importedContactsArraySchema,
    Except.isOk, Except.toBool]

/-- Claim C4: parse shape handling — a bare-array artifact and an envelope
artifact carrying the same array under its `data` field parse to the
identical contact list, while every other top-level shape (null, boolean,
number, string, or an object without a `data` field) is a fatal parse
error. -/
theorem parseContent_shape_handling (elems : List Json) (src : String) :
    parseContent (.arr elems) = .ok (.arr elems)
    ∧ parseContent (.obj [("source", .str src), ("data", .arr elems)])
        = parseContent (.arr elems)
    ∧ (parseContent .null).isOk = false
    ∧ (∀ b, (parseContent (.bool b)).isOk = false)
    ∧ (∀ n, (parseContent (.num n)).isOk = false)
    ∧ (∀ t, (parseContent (.str t)).isOk = false)
    ∧ (∀ fields, fields.lookup "data" = none →
        (parseContent (.obj fields)).isOk = false) := by
  refine ⟨rfl, rfl, rfl, fun b => rfl, fun n => rfl, fun t => rfl,
    fun fields h => ?_⟩
  simp [parseContent, h, Except.isOk, Except.toBool]

/-- Witness for the C4 theorem: the bare and envelope shapes agree on a
concrete one-element array, and an object without a `data` field is a parse
error. -/
theorem parseContent_shape_handling_witness :
    parseContent (.obj [("source", .str "acme"),
        ("data", .arr [.str "x"])]) = parseContent (.arr [.str "x"])
      ∧ (parseContent (.obj [("source", .str "acme")])).isOk = false :=
  ⟨(parseContent_shape_handling [.str "x"] "acme").2.1,
   (parseContent_shape_handling [.str "x"] "acme").2.2.2.2.2.2
     [("source", .str "acme")] rfl⟩

/-- Claim C5 counterexample: a concrete failing run — the downloaded array
has an element failing the schema — in which the worker never invokes the
artifact delete, refuting the claim that the staged artifact is deleted
after every task run, failing ones included. -/
theorem failing_run_skips_delete :
    ((processImportJob ⟨fun _ => false, .ok (.arr [.obj []]), true, true⟩
        "acme").result.isOk = false)
      ∧ (processImportJob ⟨fun _ => false, .ok (.arr [.obj []]), true, true⟩
          "acme").deleteInvoked = false := by
  decide

/-- Claim C5 (amended): the artifact delete is invoked exactly on the runs
that report success — after a successful batch insert, with only the
delete's own failure tolerated (logged, not fatal); on a download, parse,
validation, or insert failure the artifact is not deleted. -/
theorem delete_invoked_iff_success (env : WorkerEnv) (source : String) :
    (processImportJob env source).deleteInvoked =
      (processImportJob env source).result.isOk := by
  unfold processImportJob
  repeat' split
  all_goals rfl

/-- The ten decimal digit characters do not include the dash separator. -/
theorem digitChar_decimal_ne_dash :
    ∀ d : Fin 10, Nat.digitChar d.val ≠ '-' := by
  decide

/-- The function `Nat.digitChar` is injective on the ten decimal digits. -/
theorem digitChar_decimal_inj :
    ∀ d e : Fin 10, Nat.digitChar d.val = Nat.digitChar e.val → d = e := by
  decide

/-- The decimal rendering of a timestamp never contains the dash
separator. -/
theorem natDecimal_no_dash (n : Nat) : '-' ∉ (natDecimal n).data := by
  unfold natDecimal
  split
  · decide
  · intro hmem
    obtain ⟨d, hd, hdc⟩ := List.mem_map.mp (List.mem_reverse.mp hmem)
    have hlt : d < 10 := Nat.digits_lt_base (by norm_num) hd
    exact digitChar_decimal_ne_dash ⟨d, hlt⟩ hdc

/-- Mapping `Nat.digitChar` over lists of decimal digits is injective. -/
theorem map_digitChar_inj : ∀ (xs ys : List Nat),
    (∀ x ∈ xs, x < 10) → (∀ y ∈ ys, y < 10) →
    xs.map Nat.digitChar = ys.map Nat.digitChar → xs = ys := by
  intro xs
  induction xs with
  | nil =>
    intro ys _ _ h
    cases ys with
    | nil => rfl
    | cons y yt => simp at h
  | cons x xt ih =>
    intro ys hx hy h
    cases ys with
    | nil => simp at h
    | cons y yt =>
      simp only [List.map_cons, List.cons.injEq] at h
      have hxy : x = y := by
        have hfin := digitChar_decimal_inj ⟨x, hx x (List.mem_cons_self x xt)⟩
          ⟨y, hy y (List.mem_cons_self y yt)⟩ h.1
        exact congrArg Fin.val hfin
      have ht := ih yt (fun a ha => hx a (List.mem_cons_of_mem x ha))
        (fun a ha => hy a (List.mem_cons_of_mem y ha)) h.2
      rw [hxy, ht]

/-- A positive number's decimal digit characters never spell `0`. -/
theorem digits_map_ne_zero_char (b : Nat) (hb : b ≠ 0) :
    ((Nat.digits 10 b).map Nat.digitChar).reverse ≠ ['0'] := by
  intro h
  have hmap : (Nat.digits 10 b).map Nat.digitChar = ['0'] := by
    have hrev := congrArg List.reverse h
    rwa [List.reverse_reverse] at hrev
  apply hb
  cases hL : Nat.digits 10 b with
  | nil => rw [hL] at hmap; simp at hmap
  | cons d dt =>
    rw [hL] at hmap
    simp only [List.map_cons, List.cons.injEq] at hmap
    have hdt : dt = [] := List.map_eq_nil_iff.mp hmap.2
    have hmemd : d ∈ Nat.digits 10 b := by
      rw [hL]
      exact List.mem_cons_self d dt
    have hlt : d < 10 := Nat.digits_lt_base (by norm_num) hmemd
    have hd0 : d = 0 := by
      have hfin := digitChar_decimal_inj ⟨d, hlt⟩ ⟨0, by norm_num⟩ hmap.1
      exact congrArg Fin.val hfin
    have hofd := Nat.ofDigits_digits 10 b
    rw [hL, hdt, hd0] at hofd
    simpa [Nat.ofDigits] using hofd.symm

/-- The decimal rendering of timestamps is injective. -/
theorem natDecimal_inj (a b : Nat)
    (h : (natDecimal a).data = (natDecimal b).data) : a = b := by
  unfold natDecimal at h
  by_cases ha : a = 0 <;> by_cases hb : b = 0
  · rw [ha, hb]
  · rw [if_pos ha, if_neg hb] at h
    have hlist : ((Nat.digits 10 b).map Nat.digitChar).reverse = ['0'] := by
      have hx : (("0" : String)).data
          = ((Nat.digits 10 b).map Nat.digitChar).reverse := h
      exact hx.symm
    exact absurd hlist (digits_map_ne_zero_char b hb)
  · rw [if_neg ha, if_pos hb] at h
    have hlist : ((Nat.digits 10 a).map Nat.digitChar).reverse = ['0'] := by
      have hx : ((Nat.digits 10 a).map Nat.digitChar).reverse
          = (("0" : String)).data := h
      exact hx
    exact absurd hlist (digits_map_ne_zero_char a ha)
  · rw [if_neg ha, if_neg hb] at h
    have hd : ((Nat.digits 10 a).map Nat.digitChar).reverse
        = ((Nat.digits 10 b).map Nat.digitChar).reverse := h
    have hmaps : (Nat.digits 10 a).map Nat.digitChar
        = (Nat.digits 10 b).map Nat.digitChar := by
      have hrev := congrArg List.reverse hd
      rwa [List.reverse_reverse, List.reverse_reverse] at hrev
    have hdigits := map_digitChar_inj _ _
      (fun x hx => Nat.digits_lt_base (by norm_num) hx)
      (fun y hy => Nat.digits_lt_base (by norm_num) hy) hmaps
    exact Nat.digits_inj_iff.mp hdigits

/-- Splitting at a separator character absent from both prefixes is
unambiguous. -/
theorem append_dash_inj : ∀ (a c b d : List Char),
    '-' ∉ a → '-' ∉ c → a ++ '-' :: b = c ++ '-' :: d → a = c ∧ b = d := by
  intro a
  induction a with
  | nil =>
    intro c b d _ hc h
    cases c with
    | nil =>
      simp only [List.nil_append, List.cons.injEq] at h
      exact ⟨rfl, h.2⟩
    | cons y ct =>
      simp only [List.nil_append, List.cons_append, List.cons.injEq] at h
      have hmem : '-' ∈ y :: ct := by
        rw [← h.1]
        exact List.mem_cons_self _ _
      exact absurd hmem hc
  | cons x xt ih =>
    intro c b d ha hc h
    cases c with
    | nil =>
      simp only [List.nil_append, List.cons_append, List.cons.injEq] at h
      have hmem : '-' ∈ x :: xt := by
        rw [h.1]
        exact List.mem_cons_self _ _
      exact absurd hmem ha
    | cons y ct =>
      simp only [List.cons_append, List.cons.injEq] at h
      have hrec := ih ct b d (fun hm => ha (List.mem_cons_of_mem x hm))
        (fun hm => hc (List.mem_cons_of_mem y hm)) h.2
      exact ⟨by rw [h.1, hrec.1], hrec.2⟩

/-- Claim C7 counterexample: jobId uniqueness per submission attempt does
not hold unconditionally — two distinct submission attempts that observe
the same millisecond timestamp and draw the same random suffix receive the
same jobId. -/
theorem generateJobId_not_unique :
    ¬ (∀ (now : Nat → Nat) (rand : Nat → String) (i j : Nat), i ≠ j →
        generateJobId (now i) (rand i) ≠ generateJobId (now j) (rand j)) := by
  intro h
  exact h (fun _ => 1700000000000) (fun _ => "k3j9x1q7z") 0 1 (by decide) rfl

/-- Claim C7 (amended): `generateJobId` collides exactly on equal inputs —
two submission attempts receive distinct jobIds whenever they differ in
the millisecond timestamp or in the random suffix; only a simultaneous
timestamp collision and random-draw collision repeats an id. -/
theorem generateJobId_inj (t1 t2 : Nat) (r1 r2 : String)
    (hne : t1 ≠ t2 ∨ r1 ≠ r2) :
    generateJobId t1 r1 ≠ generateJobId t2 r2 := by
  intro h
  unfold generateJobId at h
  have hd : (natDecimal t1).data ++ '-' :: r1.data
      = (natDecimal t2).data ++ '-' :: r2.data := by
    have hh := congrArg String.data h
    rw [String.data_append, String.data_append, String.data_append,
      String.data_append] at hh
    simpa using hh
  obtain ⟨hpre, hsuf⟩ := append_dash_inj _ _ _ _
    (natDecimal_no_dash t1) (natDecimal_no_dash t2) hd
  rcases hne with hne | hne
  · exact hne (natDecimal_inj t1 t2 hpre)
  · exact hne (String.ext hsuf)

/-- Witness for the amended C7 theorem: attempts differing in timestamp
(and in suffix) get distinct ids. -/
theorem generateJobId_inj_witness :
    generateJobId 1700000000000 "k3j9x1q7z"
      ≠ generateJobId 1700000000001 "a0b1c2d3e" :=
  generateJobId_inj 1700000000000 1700000000001 "k3j9x1q7z" "a0b1c2d3e"
    (Or.inl (by decide))

end ImportPipeline
